import Mathlib

/-!
Formal model of the Pedersen VRF verifier of the bandersnatch-vrf package
(src/verifier/pedersen.ts), as a shallow embedding. The external curve
library and the repository helpers that are not part of the verifier file
are modelled by an explicit environment of primitive operations.
-/

set_option maxRecDepth 20000

/-- Byte strings (JavaScript Uint8Array values) as lists of naturals. -/
abbrev Bytes := List Nat

/-- The order of the prime subgroup of the Bandersnatch curve
(0x1cfb69d4ca675f520cce760202687600ff8f87007419047174fd06b52876e7e1). -/
def bandersnatchOrder : Nat :=
  13108968793781547619861935127046491459309155893440570251786403306729687672801

/-- Modelled from the spec: `bytesToBigIntLittleEndian` from
crypto/elligator2.ts, which is not present under src/. The spec fixes the
scalar wire form as canonical little-endian bytes, so the decoded integer is
the little-endian value of the byte string. -/
def bytesToBigIntLittleEndian (b : Bytes) : Nat :=
  b.foldr (fun byte acc => acc * 256 + byte) 0

/-- The deserialized Pedersen proof record, as destructured by
verifyProof: three encoded points and two encoded scalars. -/
structure PedersenVRFProof where
  Y_bar : Bytes
  R : Bytes
  O_k : Bytes
  s : Bytes
  s_b : Bytes

/-- Environment of primitives that the verifier calls but that live outside
src/verifier/pedersen.ts: the external curve adapter from the bandersnatch
package (point type, addition, scalar multiplication, equality test, decoding
of compressed bytes, the generator G and the blinding base B, and the identity
point), together with the digest and domain separator used by the challenge
generator and the composed Elligator2 hash-to-curve map returning compressed
point bytes. Decoding is partial: a thrown decode error is `none`. -/
structure CurveEnv where
  Point : Type
  zero : Point
  add : Point → Point → Point
  smul : Nat → Point → Point
  eqb : Point → Point → Bool
  bytesToPoint : Bytes → Option Point
  hashToCurveFn : Bytes → Bytes
  G : Point
  B : Point
  hash : Bytes → Nat
  domSep : Bytes

namespace PedersenVRFProver

/-- Modelled from the spec: `PedersenVRFProver.deserialize` from
prover/pedersen.ts, which is not present under src/. The spec fixes the
proof layout as five 32-byte fields in the order Y_bar, R, O_k, s, s_b. -/
def deserialize (proof : Bytes) : PedersenVRFProof :=
  { Y_bar := proof.take 32
    R := (proof.drop 32).take 32
    O_k := (proof.drop 64).take 32
    s := (proof.drop 96).take 32
    s_b := (proof.drop 128).take 32 }

/-- Modelled from the spec: `PedersenVRFProver.generateChallenge` from
prover/pedersen.ts, which is not present under src/. The spec describes the
Fiat-Shamir challenge as the digest of the domain separator, the encodings of
the points in the given order, and the aux data, reduced modulo the curve
order. The argument order (Y_bar, I, O, R, O_k, auxData) is the one at the
call site in src/verifier/pedersen.ts. -/
def generateChallenge (env : CurveEnv) (Y_bar I O R O_k auxData : Bytes) : Nat :=
  env.hash (env.domSep ++ Y_bar ++ I ++ O ++ R ++ O_k ++ auxData) % bandersnatchOrder

end PedersenVRFProver

namespace PedersenVRFVerifier

/-- hashToCurve from src/verifier/pedersen.ts: Elligator2 hash-to-curve
composed with conversion to compressed point bytes, all provided by helpers
outside the verifier file and hence taken from the environment. -/
def hashToCurve (env : CurveEnv) (message : Bytes) : Bytes :=
  env.hashToCurveFn message

/-- getBlindingBase from src/verifier/pedersen.ts: the blinding base point B
constructed from the fixed curve parameters of the external package. -/
def getBlindingBase (env : CurveEnv) : env.Point :=
  env.B

/-- The body of the try block of verifyProof in src/verifier/pedersen.ts.
Each point decode may throw, modelled by Option bind; the remaining
operations are total. Returns the boolean theta0 AND theta1. -/
def verifyProofTry (env : CurveEnv) (I O : Bytes) (proof : PedersenVRFProof)
    (auxData : Option Bytes) : Option Bool :=
  (env.bytesToPoint I).bind fun IPoint =>
  (env.bytesToPoint O).bind fun OPoint =>
  (env.bytesToPoint proof.Y_bar).bind fun Y_barPoint =>
  (env.bytesToPoint proof.R).bind fun RPoint =>
  (env.bytesToPoint proof.O_k).bind fun O_kPoint =>
  let sScalar := bytesToBigIntLittleEndian proof.s
  let s_bScalar := bytesToBigIntLittleEndian proof.s_b
  let c := PedersenVRFProver.generateChallenge env proof.Y_bar I O proof.R proof.O_k
    (auxData.getD [])
  let cO := env.smul c OPoint
  let leftSide := env.add O_kPoint cO
  let rightSide := env.smul sScalar IPoint
  let theta0 := env.eqb leftSide rightSide
  let cY_bar := env.smul c Y_barPoint
  let leftSideKey := env.add RPoint cY_bar
  let sG := env.smul sScalar env.G
  let s_bB := env.smul s_bScalar (getBlindingBase env)
  let rightSideKey := env.add sG s_bB
  let theta1 := env.eqb leftSideKey rightSideKey
  some (theta0 && theta1)

/-- verifyProof from src/verifier/pedersen.ts: runs the try block and maps
any thrown error to the boolean false (the catch branch). -/
def verifyProof (env : CurveEnv) (I O : Bytes) (proof : PedersenVRFProof)
    (auxData : Option Bytes) : Bool :=
  match verifyProofTry env I O proof auxData with
  | some isValid => isValid
  | none => false

/-- The message of the proof-size error thrown by verify. -/
def lengthErrorMsg (n : Nat) : String :=
  "Invalid Pedersen VRF proof size, expected 160 bytes, got " ++ toString n ++ " bytes"

/-- verify from src/verifier/pedersen.ts: throws on a proof whose length is
not 160 (modelled as Except.error), otherwise deserializes the proof, hashes
the input to a curve point and runs verifyProof, returning its boolean. -/
def verify (env : CurveEnv) (input gamma proof : Bytes)
    (auxData : Option Bytes) : Except String Bool :=
  if proof.length ≠ 160 then
    Except.error (lengthErrorMsg proof.length)
  else
    Except.ok (verifyProof env (hashToCurve env input) gamma
      (PedersenVRFProver.deserialize proof) auxData)

end PedersenVRFVerifier

/-! Concrete environments used to evaluate the model on explicit inputs. -/

/-- A degenerate environment whose equality test always succeeds, so that any
structurally well-formed proof is accepted: every byte string decodes to a
point, the generator and the blinding base are distinct. -/
def envAcc : CurveEnv :=
  { Point := Bool
    zero := false
    add := fun p _ => p
    smul := fun _ p => p
    eqb := fun _ _ => true
    bytesToPoint := fun _ => some false
    hashToCurveFn := fun _ => []
    G := false
    B := true
    hash := fun _ => 0
    domSep := [] }

/-- An environment in which every point decode fails, modelling a curve
adapter that throws on the given encodings. -/
def envNone : CurveEnv :=
  { Point := Bool
    zero := false
    add := fun p _ => p
    smul := fun _ p => p
    eqb := fun _ _ => true
    bytesToPoint := fun _ => none
    hashToCurveFn := fun _ => []
    G := false
    B := true
    hash := fun _ => 0
    domSep := [] }

/-- An environment whose point group is the two-element group Z/2 (a genuine
abelian group, with scalar multiplication reducing the scalar modulo the
group order 2), in which every byte string decodes to the identity point. -/
def envZ2 : CurveEnv :=
  { Point := Bool
    zero := false
    add := fun p q => p != q
    smul := fun n p => if n % 2 = 1 then p else false
    eqb := fun p q => p == q
    bytesToPoint := fun _ => some false
    hashToCurveFn := fun _ => []
    G := false
    B := false
    hash := fun _ => 0
    domSep := [] }

/-- Thirty-two zero bytes: a point or scalar field of all zeros. -/
def zeros32 : Bytes := List.replicate 32 0

/-- A 160-byte all-zero proof string. -/
def zeros160 : Bytes := List.replicate 160 0

/-- A 160-byte all-one proof string. -/
def onesProof160 : Bytes := List.replicate 160 1

/-- A 160-byte proof whose s field (bytes 96 to 127) is thirty-two 0xFF
bytes, encoding the little-endian value 2 ^ 256 - 1, with all other bytes
zero. -/
def proofMaxScalar : Bytes :=
  List.replicate 96 0 ++ List.replicate 32 255 ++ List.replicate 32 0

/-! Helper lemmas shared by the claim theorems. -/

/-- If all five point decodes succeed, the try block returns exactly the
conjunction of the two protocol equations evaluated at the recomputed
challenge and the little-endian decoded response scalars. -/
theorem verifyProofTry_eq (env : CurveEnv) (I O : Bytes) (p : PedersenVRFProof)
    (aux : Option Bytes) (IPt OPt YPt RPt OkPt : env.Point)
    (hI : env.bytesToPoint I = some IPt)
    (hO : env.bytesToPoint O = some OPt)
    (hY : env.bytesToPoint p.Y_bar = some YPt)
    (hR : env.bytesToPoint p.R = some RPt)
    (hOk : env.bytesToPoint p.O_k = some OkPt) :
    PedersenVRFVerifier.verifyProofTry env I O p aux =
      some
        ((env.eqb
          (env.add OkPt (env.smul
            (PedersenVRFProver.generateChallenge env p.Y_bar I O p.R p.O_k (aux.getD [])) OPt))
          (env.smul (bytesToBigIntLittleEndian p.s) IPt))
        &&
        (env.eqb
          (env.add RPt (env.smul
            (PedersenVRFProver.generateChallenge env p.Y_bar I O p.R p.O_k (aux.getD [])) YPt))
          (env.add (env.smul (bytesToBigIntLittleEndian p.s) env.G)
            (env.smul (bytesToBigIntLittleEndian p.s_b) env.B)))) := by
  unfold PedersenVRFVerifier.verifyProofTry
  rw [hI, hO, hY, hR, hOk]
  rfl

/-- If verify returns Except.ok true then the proof has length 160 and the
try block returned some true on the deserialized proof. -/
theorem verify_ok_true_inv (env : CurveEnv) (input gamma proof : Bytes)
    (aux : Option Bytes)
    (h : PedersenVRFVerifier.verify env input gamma proof aux = Except.ok true) :
    proof.length = 160 ∧
      PedersenVRFVerifier.verifyProofTry env
        (PedersenVRFVerifier.hashToCurve env input) gamma
        (PedersenVRFProver.deserialize proof) aux = some true := by
  unfold PedersenVRFVerifier.verify at h
  by_cases hlen : proof.length = 160
  · refine ⟨hlen, ?_⟩
    rw [if_neg (fun hcon => hcon hlen)] at h
    have hb := Except.ok.inj h
    unfold PedersenVRFVerifier.verifyProof at hb
    cases htry : PedersenVRFVerifier.verifyProofTry env
        (PedersenVRFVerifier.hashToCurve env input) gamma
        (PedersenVRFProver.deserialize proof) aux with
    | none => rw [htry] at hb; exact Bool.noConfusion hb
    | some b => rw [htry] at hb; exact congrArg some (hb : b = true)
  · rw [if_pos hlen] at h
    exact Except.noConfusion h

/-! Claim theorems. -/

/-- C1: for every input, gamma, proof and auxData, verify accepts only if the
output-commitment equation theta0 holds: the point O_k + c * Gamma, with c the
recomputed challenge and Gamma the decoded provided output point, equals
s * I, where I is the decoded hash-to-curve image of the input and s is the
response scalar decoded little-endian from the s field of the proof. -/
theorem pedersen_accept_implies_theta0 (env : CurveEnv)
    (input gamma proof : Bytes) (aux : Option Bytes)
    (IPt OPt YPt RPt OkPt : env.Point)
    (hI : env.bytesToPoint (PedersenVRFVerifier.hashToCurve env input) = some IPt)
    (hO : env.bytesToPoint gamma = some OPt)
    (hY : env.bytesToPoint (PedersenVRFProver.deserialize proof).Y_bar = some YPt)
    (hR : env.bytesToPoint (PedersenVRFProver.deserialize proof).R = some RPt)
    (hOk : env.bytesToPoint (PedersenVRFProver.deserialize proof).O_k = some OkPt)
    (hacc : PedersenVRFVerifier.verify env input gamma proof aux = Except.ok true) :
    env.eqb
      (env.add OkPt (env.smul
        (PedersenVRFProver.generateChallenge env
          (PedersenVRFProver.deserialize proof).Y_bar
          (PedersenVRFVerifier.hashToCurve env input) gamma
          (PedersenVRFProver.deserialize proof).R
          (PedersenVRFProver.deserialize proof).O_k (aux.getD [])) OPt))
      (env.smul (bytesToBigIntLittleEndian (PedersenVRFProver.deserialize proof).s) IPt)
      = true := by
  obtain ⟨hlen, htry⟩ := verify_ok_true_inv env input gamma proof aux hacc
  rw [verifyProofTry_eq env (PedersenVRFVerifier.hashToCurve env input) gamma
    (PedersenVRFProver.deserialize proof) aux IPt OPt YPt RPt OkPt hI hO hY hR hOk] at htry
  exact (Bool.and_eq_true _ _ |>.mp (Option.some.inj htry)).1

/-- C1 witness: at a concrete degenerate environment and concrete bytes the
accepted all-zero proof satisfies the theorem. -/
theorem pedersen_accept_implies_theta0_witness : envAcc.eqb false false = true :=
  pedersen_accept_implies_theta0 envAcc [] zeros32 zeros160 none
    false false false false false rfl rfl rfl rfl rfl rfl

/-- C2: for every input, gamma, proof and auxData, and with the blinding base
B distinct from the generator G, verify accepts only if the key-commitment
equation theta1 holds: R + c * Y_bar equals s * G + s_b * B, with s and s_b
the two response scalars decoded little-endian from the proof. -/
theorem pedersen_accept_implies_theta1 (env : CurveEnv)
    (input gamma proof : Bytes) (aux : Option Bytes)
    (hGB : env.G ≠ env.B)
    (IPt OPt YPt RPt OkPt : env.Point)
    (hI : env.bytesToPoint (PedersenVRFVerifier.hashToCurve env input) = some IPt)
    (hO : env.bytesToPoint gamma = some OPt)
    (hY : env.bytesToPoint (PedersenVRFProver.deserialize proof).Y_bar = some YPt)
    (hR : env.bytesToPoint (PedersenVRFProver.deserialize proof).R = some RPt)
    (hOk : env.bytesToPoint (PedersenVRFProver.deserialize proof).O_k = some OkPt)
    (hacc : PedersenVRFVerifier.verify env input gamma proof aux = Except.ok true) :
    env.eqb
      (env.add RPt (env.smul
        (PedersenVRFProver.generateChallenge env
          (PedersenVRFProver.deserialize proof).Y_bar
          (PedersenVRFVerifier.hashToCurve env input) gamma
          (PedersenVRFProver.deserialize proof).R
          (PedersenVRFProver.deserialize proof).O_k (aux.getD [])) YPt))
      (env.add
        (env.smul (bytesToBigIntLittleEndian (PedersenVRFProver.deserialize proof).s) env.G)
        (env.smul (bytesToBigIntLittleEndian (PedersenVRFProver.deserialize proof).s_b) env.B))
      = true := by
  obtain ⟨hlen, htry⟩ := verify_ok_true_inv env input gamma proof aux hacc
  rw [verifyProofTry_eq env (PedersenVRFVerifier.hashToCurve env input) gamma
    (PedersenVRFProver.deserialize proof) aux IPt OPt YPt RPt OkPt hI hO hY hR hOk] at htry
  exact (Bool.and_eq_true _ _ |>.mp (Option.some.inj htry)).2

/-- C2 witness: at a concrete environment whose generator and blinding base
differ, an accepted proof satisfies the key-commitment equation. -/
theorem pedersen_accept_implies_theta1_witness :
    envAcc.eqb (envAcc.add false false) (envAcc.add false true) = true :=
  pedersen_accept_implies_theta1 envAcc [] zeros32 zeros160 none
    (fun h => Bool.noConfusion h) false false false false false rfl rfl rfl rfl rfl rfl

/-- C3: the challenge is the Fiat-Shamir digest of the domain separator and
exactly the ordered tuple Y_bar, I, Gamma, R, O_k followed by the aux data,
reduced modulo the curve order; and for a 160-byte proof whose points decode,
verify returns Except.ok true if and only if both equations theta0 and theta1
hold for that challenge. -/
theorem pedersen_challenge_tuple_iff (env : CurveEnv)
    (input gamma proof : Bytes) (aux : Option Bytes)
    (IPt OPt YPt RPt OkPt : env.Point)
    (hlen : proof.length = 160)
    (hI : env.bytesToPoint (PedersenVRFVerifier.hashToCurve env input) = some IPt)
    (hO : env.bytesToPoint gamma = some OPt)
    (hY : env.bytesToPoint (PedersenVRFProver.deserialize proof).Y_bar = some YPt)
    (hR : env.bytesToPoint (PedersenVRFProver.deserialize proof).R = some RPt)
    (hOk : env.bytesToPoint (PedersenVRFProver.deserialize proof).O_k = some OkPt) :
    (PedersenVRFProver.generateChallenge env
        (PedersenVRFProver.deserialize proof).Y_bar
        (PedersenVRFVerifier.hashToCurve env input) gamma
        (PedersenVRFProver.deserialize proof).R
        (PedersenVRFProver.deserialize proof).O_k (aux.getD []) =
      env.hash (env.domSep ++ (PedersenVRFProver.deserialize proof).Y_bar ++
        PedersenVRFVerifier.hashToCurve env input ++ gamma ++
        (PedersenVRFProver.deserialize proof).R ++
        (PedersenVRFProver.deserialize proof).O_k ++ aux.getD []) % bandersnatchOrder) ∧
    (PedersenVRFVerifier.verify env input gamma proof aux = Except.ok true ↔
      (env.eqb
        (env.add OkPt (env.smul
          (PedersenVRFProver.generateChallenge env
            (PedersenVRFProver.deserialize proof).Y_bar
            (PedersenVRFVerifier.hashToCurve env input) gamma
            (PedersenVRFProver.deserialize proof).R
            (PedersenVRFProver.deserialize proof).O_k (aux.getD [])) OPt))
        (env.smul (bytesToBigIntLittleEndian (PedersenVRFProver.deserialize proof).s) IPt)
        = true ∧
      env.eqb
        (env.add RPt (env.smul
          (PedersenVRFProver.generateChallenge env
            (PedersenVRFProver.deserialize proof).Y_bar
            (PedersenVRFVerifier.hashToCurve env input) gamma
            (PedersenVRFProver.deserialize proof).R
            (PedersenVRFProver.deserialize proof).O_k (aux.getD [])) YPt))
        (env.add
          (env.smul (bytesToBigIntLittleEndian (PedersenVRFProver.deserialize proof).s) env.G)
          (env.smul (bytesToBigIntLittleEndian (PedersenVRFProver.deserialize proof).s_b) env.B))
        = true)) := by
  constructor
  · rfl
  · unfold PedersenVRFVerifier.verify PedersenVRFVerifier.verifyProof
    rw [if_neg (fun hcon => hcon hlen)]
    rw [verifyProofTry_eq env (PedersenVRFVerifier.hashToCurve env input) gamma
      (PedersenVRFProver.deserialize proof) aux IPt OPt YPt RPt OkPt hI hO hY hR hOk]
    simp only [Except.ok.injEq, Bool.and_eq_true]

/-- C3 witness: at a concrete environment and the all-zero 160-byte proof,
both parts of the claim evaluate. -/
theorem pedersen_challenge_tuple_iff_witness :
    (PedersenVRFProver.generateChallenge envAcc
        (PedersenVRFProver.deserialize zeros160).Y_bar
        (PedersenVRFVerifier.hashToCurve envAcc []) zeros32
        (PedersenVRFProver.deserialize zeros160).R
        (PedersenVRFProver.deserialize zeros160).O_k [] =
      envAcc.hash (envAcc.domSep ++ (PedersenVRFProver.deserialize zeros160).Y_bar ++
        PedersenVRFVerifier.hashToCurve envAcc [] ++ zeros32 ++
        (PedersenVRFProver.deserialize zeros160).R ++
        (PedersenVRFProver.deserialize zeros160).O_k ++ []) % bandersnatchOrder) ∧
    (PedersenVRFVerifier.verify envAcc [] zeros32 zeros160 none = Except.ok true ↔
      (envAcc.eqb false false = true ∧ envAcc.eqb false false = true)) :=
  pedersen_challenge_tuple_iff envAcc [] zeros32 zeros160 none
    false false false false false rfl rfl rfl rfl rfl rfl

/-- C4: a proof whose byte length is not 160 makes verify raise the size
error (not return false), with a result that does not depend on the
environment of curve and hash primitives, so no deserialization, hashing or
curve arithmetic can influence it; a 160-byte proof passes the length check
and reaches the proof-verification step. -/
theorem pedersen_length_check (env env2 : CurveEnv)
    (input gamma proof : Bytes) (aux : Option Bytes) :
    (proof.length ≠ 160 →
      PedersenVRFVerifier.verify env input gamma proof aux =
        Except.error (PedersenVRFVerifier.lengthErrorMsg proof.length) ∧
      PedersenVRFVerifier.verify env input gamma proof aux =
        PedersenVRFVerifier.verify env2 input gamma proof aux) ∧
    (proof.length = 160 →
      PedersenVRFVerifier.verify env input gamma proof aux =
        Except.ok (PedersenVRFVerifier.verifyProof env
          (PedersenVRFVerifier.hashToCurve env input) gamma
          (PedersenVRFProver.deserialize proof) aux)) := by
  constructor
  · intro hne
    constructor
    · unfold PedersenVRFVerifier.verify
      rw [if_pos hne]
    · unfold PedersenVRFVerifier.verify
      rw [if_pos hne, if_pos hne]
  · intro hlen
    unfold PedersenVRFVerifier.verify
    rw [if_neg (fun hcon => hcon hlen)]

/-- C4 witness: an empty proof raises the size error naming length 0 under
any environment, and the all-zero 160-byte proof passes the length check. -/
theorem pedersen_length_check_witness :
    PedersenVRFVerifier.verify envAcc [] zeros32 [] none =
      Except.error (PedersenVRFVerifier.lengthErrorMsg 0) ∧
    PedersenVRFVerifier.verify envAcc [] zeros32 zeros160 none = Except.ok true :=
  ⟨((pedersen_length_check envAcc envNone [] zeros32 [] none).1 (by decide)).1,
   (pedersen_length_check envAcc envNone [] zeros32 zeros160 none).2 rfl⟩

/-- C5 counterexample: in an environment whose curve adapter fails to decode
the provided gamma bytes (a structural point error), verify does not surface
an error: it returns Except.ok false, the same outcome as an ordinary
verification failure, without having evaluated any protocol equation. -/
theorem pedersen_structural_error_swallowed :
    envNone.bytesToPoint zeros32 = none ∧
    PedersenVRFVerifier.verify envNone [] zeros32 zeros160 none = Except.ok false :=
  ⟨rfl, rfl⟩

/-- C5 amended: only the wrong-length check raises a structural error; a
point field that fails to decode inside verifyProof is caught by its catch
branch and mapped to the boolean false, so for a 160-byte proof whose gamma
does not decode, verify returns Except.ok false rather than an error. -/
theorem pedersen_decode_failure_returns_false (env : CurveEnv)
    (input gamma proof : Bytes) (aux : Option Bytes)
    (hlen : proof.length = 160)
    (hO : env.bytesToPoint gamma = none) :
    PedersenVRFVerifier.verify env input gamma proof aux = Except.ok false := by
  have htry : PedersenVRFVerifier.verifyProofTry env
      (PedersenVRFVerifier.hashToCurve env input) gamma
      (PedersenVRFProver.deserialize proof) aux = none := by
    unfold PedersenVRFVerifier.verifyProofTry
    rw [hO]
    cases env.bytesToPoint (PedersenVRFVerifier.hashToCurve env input) <;> rfl
  unfold PedersenVRFVerifier.verify PedersenVRFVerifier.verifyProof
  rw [if_neg (fun hcon => hcon hlen), htry]

/-- C5 amended witness: a concrete 160-byte proof and a gamma that does not
decode give Except.ok false. -/
theorem pedersen_decode_failure_returns_false_witness :
    PedersenVRFVerifier.verify envNone [] [5] onesProof160 none = Except.ok false :=
  pedersen_decode_failure_returns_false envNone [] [5] onesProof160 none rfl rfl

/-- C6: the code decodes the s field little-endian and uses it directly in
the verification equations with no range check against the curve order: on a
proof whose s field is thirty-two 0xFF bytes, the decoded scalar is
2 ^ 256 - 1, which is at least the curve order, and verify still completes
the equations and returns a boolean (here Except.ok true) instead of
rejecting the scalar. -/
theorem pedersen_oversized_scalar_used :
    bytesToBigIntLittleEndian (PedersenVRFProver.deserialize proofMaxScalar).s = 2 ^ 256 - 1 ∧
    bandersnatchOrder ≤ bytesToBigIntLittleEndian (PedersenVRFProver.deserialize proofMaxScalar).s ∧
    PedersenVRFVerifier.verify envZ2 [] zeros32 proofMaxScalar none = Except.ok true := by
  refine ⟨by decide, by decide, rfl⟩

/-- C7 counterexample: in an environment whose point group is Z/2 and in
which the gamma bytes and the Y_bar field decode to the identity point, the
all-zero proof is accepted: the verifier consumes identity points and never
rejects them. -/
theorem pedersen_identity_point_accepted :
    envZ2.bytesToPoint zeros32 = some envZ2.zero ∧
    envZ2.bytesToPoint (PedersenVRFProver.deserialize zeros160).Y_bar = some envZ2.zero ∧
    PedersenVRFVerifier.verify envZ2 [] zeros32 zeros160 none = Except.ok true :=
  ⟨rfl, rfl, rfl⟩

/-- C7 amended: every one of the five points consumed by the verifier (I,
gamma, Y_bar, R, O_k) is decoded by the curve adapter, whose contract holds
the on-curve and subgroup checks, before any equation is evaluated: if verify
accepts, all five decodes succeeded. The verifier performs no identity-point
rejection of its own. -/
theorem pedersen_accept_implies_decoded (env : CurveEnv)
    (input gamma proof : Bytes) (aux : Option Bytes)
    (hacc : PedersenVRFVerifier.verify env input gamma proof aux = Except.ok true) :
    (env.bytesToPoint (PedersenVRFVerifier.hashToCurve env input)).isSome = true ∧
    (env.bytesToPoint gamma).isSome = true ∧
    (env.bytesToPoint (PedersenVRFProver.deserialize proof).Y_bar).isSome = true ∧
    (env.bytesToPoint (PedersenVRFProver.deserialize proof).R).isSome = true ∧
    (env.bytesToPoint (PedersenVRFProver.deserialize proof).O_k).isSome = true := by
  obtain ⟨hlen, htry⟩ := verify_ok_true_inv env input gamma proof aux hacc
  unfold PedersenVRFVerifier.verifyProofTry at htry
  cases hI : env.bytesToPoint (PedersenVRFVerifier.hashToCurve env input) with
  | none => rw [hI] at htry; exact Option.noConfusion htry
  | some IPt =>
  rw [hI] at htry
  cases hO : env.bytesToPoint gamma with
  | none => rw [hO] at htry; exact Option.noConfusion htry
  | some OPt =>
  rw [hO] at htry
  cases hY : env.bytesToPoint (PedersenVRFProver.deserialize proof).Y_bar with
  | none => rw [hY] at htry; exact Option.noConfusion htry
  | some YPt =>
  rw [hY] at htry
  cases hR : env.bytesToPoint (PedersenVRFProver.deserialize proof).R with
  | none => rw [hR] at htry; exact Option.noConfusion htry
  | some RPt =>
  rw [hR] at htry
  cases hOk : env.bytesToPoint (PedersenVRFProver.deserialize proof).O_k with
  | none => rw [hOk] at htry; exact Option.noConfusion htry
  | some OkPt =>
  simp [hI, hO, hY, hR, hOk]

/-- C7 amended witness: at a concrete accepting run all five decodes are
seen to have succeeded. -/
theorem pedersen_accept_implies_decoded_witness :
    (envAcc.bytesToPoint (PedersenVRFVerifier.hashToCurve envAcc [])).isSome = true ∧
    (envAcc.bytesToPoint zeros32).isSome = true ∧
    (envAcc.bytesToPoint (PedersenVRFProver.deserialize zeros160).Y_bar).isSome = true ∧
    (envAcc.bytesToPoint (PedersenVRFProver.deserialize zeros160).R).isSome = true ∧
    (envAcc.bytesToPoint (PedersenVRFProver.deserialize zeros160).O_k).isSome = true :=
  pedersen_accept_implies_decoded envAcc [] zeros32 zeros160 none rfl

/-- C8: verify is a deterministic pure function of its four byte arguments:
with the primitives fixed, byte-identical inputs give identical results, and
the result is the single returned value (the model has no other effect; the
console diagnostics of the code do not influence the return). -/
theorem pedersen_verify_deterministic (env : CurveEnv)
    (i1 i2 g1 g2 p1 p2 : Bytes) (a1 a2 : Option Bytes)
    (hi : i1 = i2) (hg : g1 = g2) (hp : p1 = p2) (ha : a1 = a2) :
    PedersenVRFVerifier.verify env i1 g1 p1 a1 =
      PedersenVRFVerifier.verify env i2 g2 p2 a2 := by
  rw [hi, hg, hp, ha]

/-- C8 witness: two calls on identical concrete bytes agree. -/
theorem pedersen_verify_deterministic_witness :
    PedersenVRFVerifier.verify envAcc [] zeros32 zeros160 none =
      PedersenVRFVerifier.verify envAcc [] zeros32 zeros160 none :=
  pedersen_verify_deterministic envAcc [] [] zeros32 zeros32 zeros160 zeros160
    none none rfl rfl rfl rfl

/-- C9: omitting the optional auxData argument is the same as passing the
empty byte string: the challenge is computed with the empty-array default, so
verify with no aux data equals verify with empty aux data on every input,
gamma and proof. -/
theorem pedersen_auxdata_default (env : CurveEnv) (input gamma proof : Bytes) :
    PedersenVRFVerifier.verify env input gamma proof none =
      PedersenVRFVerifier.verify env input gamma proof (some []) :=
  rfl

/-- C10: the inner verification step is total: a failure inside the try
block (modelled as none) is caught and mapped to the boolean false, and a
completed try block returns its boolean unchanged, so verifyProof always
returns a boolean. -/
theorem pedersen_catch_maps_to_false (env : CurveEnv) (I O : Bytes)
    (p : PedersenVRFProof) (aux : Option Bytes) :
    (PedersenVRFVerifier.verifyProofTry env I O p aux = none →
      PedersenVRFVerifier.verifyProof env I O p aux = false) ∧
    (∀ b : Bool, PedersenVRFVerifier.verifyProofTry env I O p aux = some b →
      PedersenVRFVerifier.verifyProof env I O p aux = b) := by
  constructor
  · intro h
    unfold PedersenVRFVerifier.verifyProof
    rw [h]
  · intro b h
    unfold PedersenVRFVerifier.verifyProof
    rw [h]

/-- C10 witness: a failing decode run yields false and a completed run
yields its boolean, at concrete inputs. -/
theorem pedersen_catch_maps_to_false_witness :
    PedersenVRFVerifier.verifyProof envNone [] zeros32
      (PedersenVRFProver.deserialize zeros160) none = false ∧
    PedersenVRFVerifier.verifyProof envAcc [] zeros32
      (PedersenVRFProver.deserialize zeros160) none = true :=
  ⟨(pedersen_catch_maps_to_false envNone [] zeros32
      (PedersenVRFProver.deserialize zeros160) none).1 rfl,
   (pedersen_catch_maps_to_false envAcc [] zeros32
      (PedersenVRFProver.deserialize zeros160) none).2 true rfl⟩
